import Mathlib

/-!
Verification of the TerraGuard cloud-configuration editor
(`src/app/cloud/[id]/editor/page.tsx`).

The page is a React component holding its state in `useState` hooks.  We
embed that state as the structure `EditorState` and each event handler as a
pure function from state to state (plus the list of toast notifications it
fires and the network request it dispatches, when any).

JavaScript-specific conventions of the embedding:
- a JS object with string keys is an insertion-ordered association list with
  distinct keys (`Object.keys`/`Object.entries` iterate in insertion order
  for the non-integer-like keys used here: service names and filenames);
- `undefined` string values are `Option String` with `none` for `undefined`;
- truthiness: a string is falsy exactly when it is empty, `undefined` is
  falsy, and any object (in particular a `Promise` returned by `fetch`) is
  truthy;
- property access `obj[k]` on `k = undefined` coerces the key to the string
  "undefined";
- a handler that would throw a `TypeError` (property access on `undefined`)
  is modelled as returning `none`.
-/

set_option autoImplicit false

namespace TerraGuard

/-- First-match lookup in a JS-object-as-association-list. -/
def lookup {α : Type} : List (String × α) → String → Option α
  | [], _ => none
  | p :: rest, key => if p.1 = key then some p.2 else lookup rest key

/-- JS property assignment / object spread `\x7b...obj, [k]: v\x7d`: an existing
key keeps its position and gets the new value, a fresh key is appended at the
end (JS insertion order). -/
def setKey {α : Type} (m : List (String × α)) (k : String) (v : α) :
    List (String × α) :=
  if (lookup m k).isSome then m.map (fun p => if p.1 = k then (k, v) else p)
  else m ++ [(k, v)]

/-- JS truthiness of a string: only the empty string is falsy. -/
def truthyString (s : String) : Bool := !s.isEmpty

/-- JS truthiness of a possibly-`undefined` string value (`none` is
`undefined`, hence falsy). -/
def truthyOptString : Option String → Bool
  | none => false
  | some s => !s.isEmpty

/-- JS property-key coercion of a possibly-`undefined` string: `undefined`
used as a property key becomes the string "undefined". -/
def jsKey : Option String → String
  | none => "undefined"
  | some s => s

/-- Eventual settlement of a `fetch` call: the request is either rejected at
the transport level or resolves to a response, which may itself carry an
application-level error (`ok := false`). -/
inductive FetchOutcome where
  | rejected
  | resolved (ok : Bool)
  deriving DecidableEq

/-- The value `const response = fetch(...)` binds synchronously: a `Promise`
object.  Its eventual settlement is not observable synchronously. -/
structure JsPromise where
  outcome : FetchOutcome
  deriving DecidableEq

/-- JS truthiness of a `Promise`: every object is truthy, whatever its
eventual settlement. -/
def truthyPromise (_p : JsPromise) : Bool := true

/-- One toast notification, as fired through `toast(\x7b...\x7d)`;
`destructive` records `variant: "destructive"`. -/
structure Toast where
  title : String
  description : String
  destructive : Bool
  deriving DecidableEq

/-- Body of the POST to `/api/terraformapply`. -/
structure ApplyRequest where
  service : String
  cloudId : String
  awsAccessKey : String
  awsSecretKey : String
  region : String
  deriving DecidableEq

/-- The `useState` hooks of `EditorPage` that the claims are about.
`serviceFiles` maps a service name to its filename-to-content map. -/
structure EditorState where
  id : String
  serviceFiles : List (String × List (String × String))
  selectedService : String
  activeFile : Option String
  isPushDialogOpen : Bool
  selectedPushService : String
  isPushing : Bool
  expandedServices : List (String × Bool)
  accessKey : String
  secretKey : String
  region : String
  deriving DecidableEq

/-- Embeds `handleServiceSelect` (page.tsx:266-273).  Returns `none` when the
service is not a key of `serviceFiles`: there `serviceFiles[service]` is
`undefined` and `serviceFiles[service][activeFile]` throws a `TypeError`.
The carry-over test is on the truthiness of the file CONTENT
(`!serviceFiles[service][activeFile]`), not on key membership; when it fails,
`Object.keys(serviceFiles[service])[0]` (the first file, `undefined` for an
empty service) becomes active. -/
def handleServiceSelect (service : String) (s : EditorState) :
    Option EditorState :=
  match lookup s.serviceFiles service with
  | none => none
  | some files =>
    let s1 := { s with selectedService := service }
    if truthyOptString (lookup files (jsKey s.activeFile)) then some s1
    else some { s1 with activeFile := files.head?.map Prod.fst }

/-- Embeds `handleFileSelect` (page.tsx:275-278): sets both the selected
service and the active file unconditionally. -/
def handleFileSelect (service file : String) (s : EditorState) : EditorState :=
  { s with selectedService := service, activeFile := some file }

/-- Truthiness-as-Bool of an expansion flag: `prev[service]` is `undefined`
(falsy) for an absent key. -/
def isExpandedIn (m : List (String × Bool)) (k : String) : Bool :=
  (lookup m k).getD false

/-- Embeds `toggleServiceExpanded` (page.tsx:259-264):
`\x7b...prev, [service]: !prev[service]\x7d`. -/
def toggleServiceExpanded (service : String) (s : EditorState) : EditorState :=
  { s with expandedServices :=
      setKey s.expandedServices service (!(isExpandedIn s.expandedServices service)) }

/-- Embeds `handleSaveFile` (page.tsx:160-194).  Guarded by the truthiness of
`selectedService && activeFile`; optimistically writes the content into the
tree, then binds `const response = fetch(...)` WITHOUT awaiting it.  Since a
`Promise` object is always truthy, the `if (!response)` failure branch is
unreachable and the success toast fires for every outcome. -/
def handleSaveFile (outcome : FetchOutcome) (content : String)
    (s : EditorState) : EditorState × List Toast :=
  match s.activeFile with
  | none => (s, [])
  | some af =>
    if truthyString s.selectedService && truthyString af then
      let prevFiles := (lookup s.serviceFiles s.selectedService).getD []
      let newTree := setKey s.serviceFiles s.selectedService (setKey prevFiles af content)
      let s1 := { s with serviceFiles := newTree }
      let response : JsPromise := { outcome := outcome }
      if truthyPromise response = false then
        (s1, [{ title := "Error", description := "Failed to save the file",
                destructive := true }])
      else
        (s1, [{ title := "File saved",
                description := af ++ " has been saved successfully.",
                destructive := false }])
    else (s, [])

/-- Embeds `submitPushChanges` (page.tsx:204-257).  Validation first (empty
service, then empty credentials: early return with a destructive toast and no
request).  A validated submission sets `isPushing`, dispatches the apply
request, clears the three credential fields, and then tests `if (!response)`:
a `Promise` is always truthy, so the block that would reset `isPushing`,
close the dialog and fire toasts never runs. -/
def submitPushChanges (outcome : FetchOutcome) (s : EditorState) :
    EditorState × List Toast × Option ApplyRequest :=
  if !truthyString s.selectedPushService then
    (s, [{ title := "Error", description := "Please select a service to apply",
           destructive := true }], none)
  else if !truthyString s.accessKey || !truthyString s.secretKey
      || !truthyString s.region then
    (s, [{ title := "Error",
           description := "Please provide all required credentials",
           destructive := true }], none)
  else
    let s1 := { s with isPushing := true }
    let response : JsPromise := { outcome := outcome }
    let req : Option ApplyRequest := some
      { service := s.selectedPushService, cloudId := s.id,
        awsAccessKey := s.accessKey, awsSecretKey := s.secretKey,
        region := s.region }
    let s2 := { s1 with accessKey := "", secretKey := "", region := "" }
    if truthyPromise response = false then
      ({ s2 with isPushing := false, isPushDialogOpen := false },
       [{ title := "Error", description := "Failed to apply changes",
          destructive := true },
        { title := "Changes applied",
          description := "Terraform changes for " ++ s.selectedPushService
            ++ " have been applied to the cloud.", destructive := false }],
       req)
    else
      (s2, [], req)

/-- Result of the default selection a successful load performs
(page.tsx:92-108 and, identically, 120-146): the resolved tree, the selected
service for the editor and the push dialog, the active file, and the
expansion flags. -/
structure LoadDefaults where
  serviceFiles : List (String × List (String × String))
  selectedService : String
  selectedPushService : String
  activeFile : Option String
  expandedServices : List (String × Bool)
  deriving DecidableEq

/-- Embeds the default-selection logic both load branches run on a resolved
tree (page.tsx:94-108, repeated at 125-146): first service
(`Object.keys(tree)[0]`) selected for editor and push dialog, its first file
active (`undefined` when the service is empty), every service expanded.  For
an empty tree `Object.keys(tree)[0]` is `undefined` and
`Object.keys(tree[undefined])` throws a `TypeError`: modelled as `none`. -/
def selectDefaults (tree : List (String × List (String × String))) :
    Option LoadDefaults :=
  match tree.head? with
  | none => none
  | some (firstService, firstFiles) =>
    some { serviceFiles := tree,
           selectedService := firstService,
           selectedPushService := firstService,
           activeFile := firstFiles.head?.map Prod.fst,
           expandedServices := tree.map (fun p => (p.1, true)) }

/-- Embeds the flattening of a live `folderStructure` (page.tsx:84-90):
`newServiceFiles[service] = files` for every service of every provider, in
iteration order; a service name repeated across providers keeps its first
position with the last files. -/
def flattenStructure
    (folderStructure : List (String × List (String × List (String × String)))) :
    List (String × List (String × String)) :=
  folderStructure.foldl
    (fun acc pr => pr.2.foldl (fun acc2 sf => setKey acc2 sf.1 sf.2) acc) []

/-- Embeds `const providerFromId = id.split("-")[0]` (page.tsx:113): the
provider prefix of the configuration identifier, used to key the static
fallback sample set.  JS `split` always returns at least one element, so
index 0 is the substring before the first "-" (the whole string when there is
none, the empty string when the identifier starts with "-"). -/
def providerFromId (id : String) : String := (id.splitOn "-").headD ""

/-- Outcome of the load effect (page.tsx:82-158). -/
inductive LoadResult where
  /-- The effect threw a `TypeError` (default selection on an empty tree). -/
  | crashed
  /-- No branch set any state: `serviceFiles` stays empty and the component
  keeps rendering the loading placeholder (page.tsx:280-288). -/
  | noData
  /-- State was set to the given defaults. -/
  | loaded (d : LoadDefaults)
  deriving DecidableEq

/-- Embeds the load effect (page.tsx:82-158).  A truthy `folderStructure`
(any object, even empty) takes the live branch: flatten, then default
selection.  Otherwise the fallback branch keys the sample set (modelled as
the parameter `samples`, since `@/lib/sampleConfigFiles` is outside the two
source files) by the provider prefix of `id`; a falsy prefix or a miss sets
no state. -/
def loadEffect
    (folderStructure :
      Option (List (String × List (String × List (String × String)))))
    (samples : List (String × List (String × List (String × String))))
    (id : String) : LoadResult :=
  match folderStructure with
  | some fs =>
    match selectDefaults (flattenStructure fs) with
    | none => LoadResult.crashed
    | some d => LoadResult.loaded d
  | none =>
    let prefixOfId := providerFromId id
    if !truthyString prefixOfId then LoadResult.noData
    else
      match lookup samples prefixOfId with
      | none => LoadResult.noData
      | some tree =>
        match selectDefaults tree with
        | none => LoadResult.crashed
        | some d => LoadResult.loaded d

/-- Render guard (page.tsx:280-288): with an empty `serviceFiles` the
component returns the "Loading configuration files..." placeholder. -/
def showsLoadingPlaceholder (s : EditorState) : Bool :=
  s.serviceFiles.isEmpty

/-- Decidable version of the workspace invariant of spec section 3: every
service has at least one file, the selected service is a key of the tree,
and the active file is a key of the selected service's file map. -/
def invB (s : EditorState) : Bool :=
  s.serviceFiles.all (fun p => !p.2.isEmpty) &&
  match lookup s.serviceFiles s.selectedService with
  | none => false
  | some files =>
    match s.activeFile with
    | none => false
    | some f => (lookup files f).isSome

/-- Concrete two-service tree used to evaluate the theorems on explicit
inputs (the scenario of spec section 8). -/
def sampleTree : List (String × List (String × String)) :=
  [("ec2", [("main.tf", "A")]), ("s3", [("bucket.tf", "B")])]

/-- Concrete loaded workspace over `sampleTree`. -/
def sampleState : EditorState :=
  { id := "aws-1", serviceFiles := sampleTree, selectedService := "ec2",
    activeFile := some "main.tf", isPushDialogOpen := false,
    selectedPushService := "ec2", isPushing := false,
    expandedServices := [("ec2", true), ("s3", true)],
    accessKey := "", secretKey := "", region := "us-west-2" }

/-- Tree in which the active file "g.tf" IS a key of service "b" but with
empty-string content. -/
def blankContentTree : List (String × List (String × String)) :=
  [("a", [("g.tf", "x")]), ("b", [("h.tf", "z"), ("g.tf", "")])]

/-- Loaded workspace over `blankContentTree` with "g.tf" active. -/
def blankContentState : EditorState :=
  { sampleState with
    serviceFiles := blankContentTree
    selectedService := "a"
    activeFile := some "g.tf"
    expandedServices := [("a", true), ("b", true)] }

/-- Workspace with the push dialog open and all credentials filled in. -/
def pushReadyState : EditorState :=
  { sampleState with
    isPushDialogOpen := true
    accessKey := "AKIA"
    secretKey := "SECRET"
    region := "us-west-2" }

/-- Workspace with the push dialog open and an empty secret key. -/
def invalidPushState : EditorState :=
  { pushReadyState with secretKey := "" }

/-- Replacing the value at key `k` leaves every other key's lookup unchanged. -/
theorem lookup_map_replace_ne {α : Type} (m : List (String × α)) (k k' : String)
    (v : α) (h : k' ≠ k) :
    lookup (m.map (fun p => if p.1 = k then (k, v) else p)) k' = lookup m k' := by
  induction m with
  | nil => rfl
  | cons p rest ih =>
    by_cases hp : p.1 = k
    · simp [lookup, hp, Ne.symm h, ih]
    · simp only [List.map_cons, if_neg hp, lookup]
      by_cases hk : p.1 = k' <;> simp [hk, ih]

/-- Replacing the value at a present key `k` makes its lookup the new value. -/
theorem lookup_map_replace_eq {α : Type} (m : List (String × α)) (k : String)
    (v : α) (h : (lookup m k).isSome = true) :
    lookup (m.map (fun p => if p.1 = k then (k, v) else p)) k = some v := by
  induction m with
  | nil => simp [lookup] at h
  | cons p rest ih =>
    by_cases hp : p.1 = k
    · simp [lookup, hp]
    · simp only [lookup, hp, if_false] at h
      simp [lookup, hp, ih h]

/-- Appending a fresh binding: the new key looks up to the new value, other
keys are unchanged. -/
theorem lookup_append_absent {α : Type} (m : List (String × α)) (k k' : String)
    (v : α) (h : lookup m k = none) :
    lookup (m ++ [(k, v)]) k' = if k' = k then some v else lookup m k' := by
  induction m with
  | nil =>
    by_cases h' : k' = k <;> simp [lookup, h', Ne.symm, eq_comm]
  | cons p rest ih =>
    simp only [lookup] at h
    by_cases hp : p.1 = k
    · simp [hp] at h
    · simp only [hp, if_false] at h
      by_cases hk : p.1 = k'
      · have : k' ≠ k := fun he => hp (hk.trans he)
        simp [lookup, hk, this]
      · simp [lookup, hk, ih h]

/-- Characterisation of JS assignment: after `setKey m k v`, key `k` holds
`v` and every other key is unchanged. -/
theorem lookup_setKey {α : Type} (m : List (String × α)) (k k' : String)
    (v : α) :
    lookup (setKey m k v) k' = if k' = k then some v else lookup m k' := by
  unfold setKey
  by_cases h : (lookup m k).isSome = true
  · rw [if_pos h]
    by_cases h' : k' = k
    · subst h'
      rw [lookup_map_replace_eq m k' v h, if_pos rfl]
    · rw [lookup_map_replace_ne m k k' v h', if_neg h']
  · rw [if_neg h]
    have hn : lookup m k = none := by
      cases hc : lookup m k with
      | none => rfl
      | some x => rw [hc] at h; simp at h
    exact lookup_append_absent m k k' v hn

/-- JS assignment never empties an object. -/
theorem setKey_ne_nil {α : Type} (m : List (String × α)) (k : String) (v : α) :
    setKey m k v ≠ [] := by
  unfold setKey
  split
  · intro hmap
    rw [List.map_eq_nil_iff] at hmap
    subst hmap
    simp [lookup] at *
  · simp

/-- JS assignment preserves a pointwise property of the entries when the new
binding satisfies it. -/
theorem all_setKey {α : Type} (P : String × α → Bool) (m : List (String × α))
    (k : String) (v : α) (hm : m.all P = true) (hv : P (k, v) = true) :
    (setKey m k v).all P = true := by
  unfold setKey
  split
  · simp only [List.all_map, List.all_eq_true] at hm ⊢
    intro p hp
    simp only [Function.comp]
    by_cases hpk : p.1 = k
    · simp [hpk, hv]
    · simp [hpk, hm p hp]
  · simp [List.all_append, hm, hv]

/-- Lookup in the all-expanded initial flag map built by the load effect. -/
theorem lookup_map_expand (m : List (String × List (String × String)))
    (k : String) :
    lookup (m.map (fun p => (p.1, true))) k = (lookup m k).map (fun _ => true) := by
  induction m with
  | nil => rfl
  | cons p rest ih =>
    by_cases hp : p.1 = k <;> simp [lookup, hp, ih]

/-- The head key of a non-empty association list looks up to the head value. -/
theorem lookup_head {α : Type} (p : String × α) (rest : List (String × α)) :
    lookup (p :: rest) p.1 = some p.2 := by
  simp [lookup]

/-- A successful lookup exhibits a member of the association list. -/
theorem lookup_mem {α : Type} (m : List (String × α)) (k : String) (v : α)
    (h : lookup m k = some v) : (k, v) ∈ m := by
  induction m with
  | nil => simp [lookup] at h
  | cons p rest ih =>
    by_cases hp : p.1 = k
    · simp only [lookup, if_pos hp, Option.some.injEq] at h
      have hpv : p = (k, v) := by
        cases p
        simp_all
      rw [← hpv]
      exact List.mem_cons_self p rest
    · simp only [lookup, if_neg hp] at h
      exact List.mem_cons_of_mem _ (ih h)

/-- A truthy possibly-undefined string is in particular defined. -/
theorem truthyOptString_isSome (o : Option String)
    (h : truthyOptString o = true) : o.isSome = true := by
  cases o <;> simp_all [truthyOptString]

/-- A string is truthy exactly when it is not the empty string. -/
theorem truthyString_iff (s : String) : truthyString s = true ↔ s ≠ "" := by
  constructor
  · intro h hs
    subst hs
    exact absurd h (by decide)
  · intro h
    have hemp : s.isEmpty = false := by
      cases he : s.isEmpty
      · rfl
      · exact absurd ((String.isEmpty_iff s).mp he) h
    simp [truthyString, hemp]

/-- C9: `toggleServiceExpanded` touches neither the selection nor the tree,
rewrites exactly the toggled service's flag (to the negation of its current
truthiness), and applied twice restores every service's expansion state. -/
theorem toggleExpanded_flips_only_that_flag (s : EditorState) (sv k : String) :
    (toggleServiceExpanded sv s).selectedService = s.selectedService ∧
    (toggleServiceExpanded sv s).activeFile = s.activeFile ∧
    (toggleServiceExpanded sv s).serviceFiles = s.serviceFiles ∧
    lookup (toggleServiceExpanded sv s).expandedServices k =
      (if k = sv then some (!(isExpandedIn s.expandedServices sv))
       else lookup s.expandedServices k) ∧
    isExpandedIn
      (toggleServiceExpanded sv (toggleServiceExpanded sv s)).expandedServices
      k = isExpandedIn s.expandedServices k := by
  refine ⟨rfl, rfl, rfl, lookup_setKey _ _ _ _, ?_⟩
  unfold toggleServiceExpanded isExpandedIn
  simp only [lookup_setKey]
  by_cases hk : k = sv <;> simp [hk, Bool.not_not]

/-- C10: the carry-over test of `handleServiceSelect` is on the truthiness of
the file's content, not on key membership: in `blankContentState` the active
file "g.tf" is a key of the newly selected service "b" (with empty-string
content), yet the selection falls back to the first file "h.tf" of "b". -/
theorem selectService_tests_truthiness_not_membership :
    (lookup [("h.tf", "z"), ("g.tf", "")] "g.tf").isSome = true ∧
    blankContentState.activeFile = some "g.tf" ∧
    handleServiceSelect "b" blankContentState =
      some { blankContentState with
             selectedService := "b"
             activeFile := some "h.tf" } := by
  exact ⟨rfl, rfl, rfl⟩

/-- C3 (refuted by the code): `handleSaveFile` binds the `fetch` promise
without awaiting it, and a promise is always truthy, so the destructive
"Failed to save the file" toast is dead code: a rejected (network-failed)
request still fires only the success toast, and the fired toasts do not
depend on the outcome at all. -/
theorem saveFile_rejected_fires_success_toast :
    (handleSaveFile FetchOutcome.rejected "new" sampleState).2 =
      [{ title := "File saved",
         description := "main.tf has been saved successfully.",
         destructive := false }] ∧
    (handleSaveFile (FetchOutcome.resolved false) "new" sampleState).2 =
      (handleSaveFile FetchOutcome.rejected "new" sampleState).2 ∧
    (handleSaveFile (FetchOutcome.resolved true) "new" sampleState).2 =
      (handleSaveFile FetchOutcome.rejected "new" sampleState).2 := by
  exact ⟨rfl, rfl, rfl⟩

/-- C4 (refuted by the code): a validated apply submission dispatches the
request, but the code that would clear `isPushing`, close the dialog and fire
a toast sits in the unreachable `if (!response)` branch: the submitting flag
stays set, the dialog stays open, and no toast is shown — for a rejected
outcome just as for resolved ones. -/
theorem submit_leaves_dialog_stuck :
    ((submitPushChanges FetchOutcome.rejected pushReadyState).2.2).isSome
      = true ∧
    (submitPushChanges FetchOutcome.rejected pushReadyState).1.isPushing
      = true ∧
    (submitPushChanges FetchOutcome.rejected pushReadyState).1.isPushDialogOpen
      = true ∧
    (submitPushChanges FetchOutcome.rejected pushReadyState).2.1 = [] ∧
    (submitPushChanges (FetchOutcome.resolved true) pushReadyState).1
      = (submitPushChanges FetchOutcome.rejected pushReadyState).1 := by
  exact ⟨rfl, rfl, rfl, rfl, rfl⟩

/-- C8 (refuted by the code): when the live fetch resolves an empty
service-to-file-tree mapping (an empty object is truthy in JS), the load
effect reaches `Object.keys(newServiceFiles[undefined])` and throws a
`TypeError` instead of leaving the loading placeholder up; only a state whose
tree was never set keeps rendering the placeholder. -/
theorem load_empty_mapping_crashes :
    loadEffect (some []) [] "aws-1" = LoadResult.crashed ∧
    loadEffect (some [("aws", [])]) [] "aws-1" = LoadResult.crashed ∧
    showsLoadingPlaceholder { sampleState with serviceFiles := [] } = true := by
  exact ⟨rfl, rfl, rfl⟩

/-- The empty string is falsy. -/
theorem truthyString_empty : truthyString "" = false := by decide

/-- C1: for a loaded tree and any service present in it with at least one
file, `handleServiceSelect` succeeds; whenever the current active file is not
a key of that service's file map the service's first file (in iteration
order) becomes active, and in every case the resulting active file is a key
of the selected service's file map. -/
theorem selectService_first_file_membership (s : EditorState) (sv : String)
    (files : List (String × String)) (a : String)
    (h1 : lookup s.serviceFiles sv = some files) (h2 : files ≠ [])
    (h3 : s.activeFile = some a) :
    ∃ s', handleServiceSelect sv s = some s' ∧ s'.selectedService = sv ∧
      (lookup files a = none → s'.activeFile = files.head?.map Prod.fst) ∧
      ∃ b, s'.activeFile = some b ∧ (lookup files b).isSome = true := by
  unfold handleServiceSelect
  simp only [h1, h3, jsKey]
  by_cases ht : truthyOptString (lookup files a) = true
  · rw [if_pos ht]
    refine ⟨_, rfl, rfl, ?_, ?_⟩
    · intro hnone
      rw [hnone] at ht
      simp [truthyOptString] at ht
    · exact ⟨a, rfl, truthyOptString_isSome _ ht⟩
  · rw [if_neg ht]
    cases files with
    | nil => exact absurd rfl h2
    | cons p fr =>
      refine ⟨_, rfl, rfl, fun _ => rfl, ⟨p.1, rfl, ?_⟩⟩
      rw [lookup_head]
      rfl

/-- Witness for C1: in the concrete workspace, selecting "s3" while
"main.tf" is active falls back to "bucket.tf". -/
theorem selectService_first_file_membership_witness :
    ∃ s', handleServiceSelect "s3" sampleState = some s' ∧
      s'.selectedService = "s3" ∧
      (lookup [("bucket.tf", "B")] "main.tf" = none →
        s'.activeFile =
          ([("bucket.tf", "B")] : List (String × String)).head?.map Prod.fst) ∧
      ∃ b, s'.activeFile = some b ∧
        (lookup [("bucket.tf", "B")] b).isSome = true :=
  selectService_first_file_membership sampleState "s3" [("bucket.tf", "B")]
    "main.tf" rfl (List.cons_ne_nil _ _) rfl

/-- C5: submitting the apply dialog with no service selected or with any of
the three credential fields empty dispatches no request, fires exactly one
destructive "Error" toast, and leaves the whole dialog state (credential
fields included) unchanged. -/
theorem submit_validation_blocks (o : FetchOutcome) (s : EditorState)
    (h : s.selectedPushService = "" ∨ s.accessKey = "" ∨ s.secretKey = ""
      ∨ s.region = "") :
    (submitPushChanges o s).2.2 = none ∧ (submitPushChanges o s).1 = s ∧
    ∃ t, (submitPushChanges o s).2.1 = [t] ∧ t.destructive = true ∧
      t.title = "Error" := by
  unfold submitPushChanges
  by_cases h1 : s.selectedPushService = ""
  · rw [h1, truthyString_empty]
    exact ⟨rfl, rfl, ⟨_, rfl, rfl, rfl⟩⟩
  · have hsp : truthyString s.selectedPushService = true :=
      (truthyString_iff _).mpr h1
    have hcred : (!truthyString s.accessKey || !truthyString s.secretKey
        || !truthyString s.region) = true := by
      rcases h with h' | hA | hS | hR
      · exact absurd h' h1
      · rw [hA, truthyString_empty]
        simp
      · rw [hS, truthyString_empty]
        simp
      · rw [hR, truthyString_empty]
        simp
    rw [hsp, hcred]
    exact ⟨rfl, rfl, ⟨_, rfl, rfl, rfl⟩⟩

/-- Witness for C5: an empty secret key blocks the submission and changes
nothing. -/
theorem submit_validation_blocks_witness :
    (submitPushChanges FetchOutcome.rejected invalidPushState).2.2 = none ∧
    (submitPushChanges FetchOutcome.rejected invalidPushState).1
      = invalidPushState ∧
    ∃ t, (submitPushChanges FetchOutcome.rejected invalidPushState).2.1
        = [t] ∧ t.destructive = true ∧ t.title = "Error" :=
  submit_validation_blocks FetchOutcome.rejected invalidPushState
    (Or.inr (Or.inr (Or.inl rfl)))

/-- C6: a validated apply submission dispatches the request built from the
pre-clear credential values and, whatever the outcome of the request, leaves
all three credential fields empty. -/
theorem submit_clears_credentials (o : FetchOutcome) (s : EditorState)
    (h1 : s.selectedPushService ≠ "") (h2 : s.accessKey ≠ "")
    (h3 : s.secretKey ≠ "") (h4 : s.region ≠ "") :
    (submitPushChanges o s).2.2 = some
      { service := s.selectedPushService, cloudId := s.id,
        awsAccessKey := s.accessKey, awsSecretKey := s.secretKey,
        region := s.region } ∧
    (submitPushChanges o s).1.accessKey = "" ∧
    (submitPushChanges o s).1.secretKey = "" ∧
    (submitPushChanges o s).1.region = "" := by
  unfold submitPushChanges
  rw [(truthyString_iff _).mpr h1, (truthyString_iff _).mpr h2,
    (truthyString_iff _).mpr h3, (truthyString_iff _).mpr h4]
  simp [truthyPromise]

/-- Witness for C6: the filled-in dialog dispatches the request and comes
back with empty credential fields. -/
theorem submit_clears_credentials_witness :
    (submitPushChanges FetchOutcome.rejected pushReadyState).2.2 = some
      { service := pushReadyState.selectedPushService,
        cloudId := pushReadyState.id,
        awsAccessKey := pushReadyState.accessKey,
        awsSecretKey := pushReadyState.secretKey,
        region := pushReadyState.region } ∧
    (submitPushChanges FetchOutcome.rejected pushReadyState).1.accessKey
      = "" ∧
    (submitPushChanges FetchOutcome.rejected pushReadyState).1.secretKey
      = "" ∧
    (submitPushChanges FetchOutcome.rejected pushReadyState).1.region = "" :=
  submit_clears_credentials FetchOutcome.rejected pushReadyState
    (by decide) (by decide) (by decide) (by decide)

/-- C7: on a non-empty resolved tree whose first service has at least one
file, the default-selection logic run by both load branches picks the first
service (for the editor and for the push dialog) and its first file, marks
every service of the tree expanded, and the resulting selection is a member
of the tree. -/
theorem load_selects_first_and_expands_all (sv : String)
    (files : List (String × String))
    (rest tree : List (String × List (String × String)))
    (ht : tree = (sv, files) :: rest) (hf : files ≠ []) :
    ∃ d, selectDefaults tree = some d ∧ d.serviceFiles = tree ∧
      d.selectedService = sv ∧ d.selectedPushService = sv ∧
      d.activeFile = files.head?.map Prod.fst ∧
      (∃ f, d.activeFile = some f ∧ (lookup files f).isSome = true) ∧
      (lookup tree d.selectedService).isSome = true ∧
      (∀ svc, (lookup tree svc).isSome = true →
        lookup d.expandedServices svc = some true) := by
  subst ht
  cases files with
  | nil => exact absurd rfl hf
  | cons p fr =>
    refine ⟨_, rfl, rfl, rfl, rfl, rfl, ⟨p.1, rfl, ?_⟩, ?_, ?_⟩
    · simp [lookup]
    · simp [lookup]
    · intro svc hsvc
      rw [lookup_map_expand]
      cases hc : lookup ((sv, p :: fr) :: rest) svc with
      | none =>
        rw [hc] at hsvc
        simp at hsvc
      | some x => simp [hc]

/-- Witness for C7 on the concrete two-service tree. -/
theorem load_selects_first_and_expands_all_witness :
    ∃ d, selectDefaults sampleTree = some d ∧ d.serviceFiles = sampleTree ∧
      d.selectedService = "ec2" ∧ d.selectedPushService = "ec2" ∧
      d.activeFile
        = ([("main.tf", "A")] : List (String × String)).head?.map Prod.fst ∧
      (∃ f, d.activeFile = some f ∧
        (lookup [("main.tf", "A")] f).isSome = true) ∧
      (lookup sampleTree d.selectedService).isSome = true ∧
      (∀ svc, (lookup sampleTree svc).isSome = true →
        lookup d.expandedServices svc = some true) :=
  load_selects_first_and_expands_all "ec2" [("main.tf", "A")]
    [("s3", [("bucket.tf", "B")])] sampleTree rfl (List.cons_ne_nil _ _)

/-- Elimination form of the loaded-workspace invariant. -/
theorem invB_elim (s : EditorState) (h : invB s = true) :
    s.serviceFiles.all (fun p => !p.2.isEmpty) = true ∧
    ∃ files f, lookup s.serviceFiles s.selectedService = some files ∧
      s.activeFile = some f ∧ (lookup files f).isSome = true := by
  unfold invB at h
  rw [Bool.and_eq_true] at h
  obtain ⟨hall, hrest⟩ := h
  refine ⟨hall, ?_⟩
  split at hrest
  · simp at hrest
  · rename_i files heq
    split at hrest
    · simp at hrest
    · rename_i f haf
      exact ⟨files, f, heq, haf, hrest⟩

/-- Introduction form of the loaded-workspace invariant. -/
theorem invB_intro (s : EditorState) (files : List (String × String))
    (f : String) (hall : s.serviceFiles.all (fun p => !p.2.isEmpty) = true)
    (hsel : lookup s.serviceFiles s.selectedService = some files)
    (haf : s.activeFile = some f) (hlf : (lookup files f).isSome = true) :
    invB s = true := by
  unfold invB
  simp only [hsel, haf, Bool.and_eq_true]
  exact ⟨hall, hlf⟩

/-- C2: once the tree is loaded (invariant `invB`: every service non-empty,
the selected service a key of the tree, the active file a key of its file
map), the invariant is preserved by every operation at every argument it
accepts: any service `handleServiceSelect` does not crash on, any
service/file pair present in the tree for `handleFileSelect` (the only pairs
the rendered file buttons offer), any service for `toggleServiceExpanded`,
and any content and network outcome for `handleSaveFile`. -/
theorem workspace_invariant_preserved (s : EditorState) (h : invB s = true) :
    (∀ sv s', handleServiceSelect sv s = some s' → invB s' = true) ∧
    (∀ sv f files, lookup s.serviceFiles sv = some files →
      (lookup files f).isSome = true →
      invB (handleFileSelect sv f s) = true) ∧
    (∀ sv, invB (toggleServiceExpanded sv s) = true) ∧
    (∀ o c, invB (handleSaveFile o c s).1 = true) := by
  obtain ⟨hall, files0, f0, hsel0, haf0, hlf0⟩ := invB_elim s h
  refine ⟨?_, ?_, ?_, ?_⟩
  · intro sv s' hss
    unfold handleServiceSelect at hss
    split at hss
    · simp at hss
    · rename_i files hsv
      simp only [haf0, jsKey] at hss
      by_cases ht : truthyOptString (lookup files f0) = true
      · rw [if_pos ht] at hss
        cases Option.some.inj hss
        exact invB_intro _ files f0 hall hsv rfl
          (truthyOptString_isSome _ ht)
      · rw [if_neg ht] at hss
        cases Option.some.inj hss
        have hmem := lookup_mem _ _ _ hsv
        have hne := List.all_eq_true.mp hall _ hmem
        cases files with
        | nil => simp at hne
        | cons p fr =>
          exact invB_intro _ (p :: fr) p.1 hall hsv rfl (by simp [lookup])
  · intro sv f files hsv hf
    exact invB_intro _ files f hall hsv rfl hf
  · intro sv
    exact invB_intro _ files0 f0 hall hsel0 haf0 hlf0
  · intro o c
    unfold handleSaveFile
    simp only [haf0, hsel0, Option.getD_some]
    by_cases hg : (truthyString s.selectedService && truthyString f0) = true
    · rw [if_pos hg]
      rw [if_neg (by simp [truthyPromise])]
      apply invB_intro _ (setKey files0 f0 c) f0
      · apply all_setKey _ _ _ _ hall
        cases hcs : setKey files0 f0 c with
        | nil => exact absurd hcs (setKey_ne_nil _ _ _)
        | cons q qs => simp
      · rw [lookup_setKey, if_pos rfl]
      · rfl
      · rw [lookup_setKey, if_pos rfl]
        rfl
    · rw [if_neg hg]
      exact h

/-- Witness for C2: the concrete workspace satisfies the invariant, and it is
preserved by a concrete toggle. -/
theorem workspace_invariant_preserved_witness :
    invB sampleState = true ∧
    invB (toggleServiceExpanded "s3" sampleState) = true :=
  ⟨by decide,
   (workspace_invariant_preserved sampleState (by decide)).2.2.1 "s3"⟩

end TerraGuard
